import Mathlib

/-!
Verification of the bounded incremental HTTP/1 message-reception pipeline of
`net::tcp` (file `src/tcp/tcp_connection.cpp`), against its design document.

The shallow embedding below translates the functions of `tcp_connection.cpp`
(`detailed_error`, `check_parse_done`, `parse_request`, `finished`,
`initialize_state`, `update_state`, `check_recv_size`, `recv_request`) into
executable Lean definitions.  Bytes are `Nat`, byte buffers are `List Nat`,
`std::chrono` time points are `Int` nanosecond counts since the epoch, and
`std::chrono::seconds` durations are `Int` second counts.  The asynchronous
read (`sio::async::read_some` composed with `ex::timeout`) is modelled by an
explicit event trace: each loop iteration of `recv_request` consumes exactly
one `ReadEvent`, which says whether the read completed in time with some
bytes, hit the armed deadline, or was cancelled from outside.

Parts of the repository that `tcp_connection.cpp` uses but whose sources are
not available (`http1/http_message_parser.h`, `http1/http_error.h`,
`utils/timeout.h`, `tcp_connection.h`) are modelled from the design
document's words; each such definition carries a doc comment starting with
`Modelled from the spec:`.
-/

namespace Networking

/-- Bytes of a string literal, as their ASCII code points. -/
def strBytes (s : String) : List Nat :=
  s.toList.map Char.toNat

/-- Modelled from the spec: the error taxonomy of the missing
`http1/http_error.h` (§7 of the design document), together with the error
names that `tcp_connection.cpp` spells out (`kRecvRequestTimeoutWithNothing`,
`kRecvRequestLineTimeout`, `kRecvRequestHeadersTimeout`,
`kRecvRequestBodyTimeout`, `kRecvTimeout`, `kEndOfStream`, `kNeedMore`,
`kSuccess`).  Every enumerator maps to a nonzero `std::error_code` value
(a cleared code is represented separately as `Option.none` below), so that a
code holding any enumerator converts to `true` in a boolean context. -/
inductive Error where
  | kSuccess
  | kNeedMore
  | kRecvRequestTimeoutWithNothing
  | kRecvRequestLineTimeout
  | kRecvRequestHeadersTimeout
  | kRecvRequestBodyTimeout
  | kRecvTimeout
  | kEndOfStream
  | kMessageTooLarge
  | kMalformedStartLine
  | kMalformedHeader
  deriving DecidableEq, Repr

/-- The parser's progress states, named as in
`http1::RequestParser::MessageState` (used by `detailed_error` in
`tcp_connection.cpp`): `kNothingYet`, `kStartLine`, `kExpectingNewline`,
`kHeader`, `kBody`, `kCompleted`. -/
inductive MessageState where
  | kNothingYet
  | kStartLine
  | kExpectingNewline
  | kHeader
  | kBody
  | kCompleted
  deriving DecidableEq, Repr

/-- Modelled from the spec: the request message under construction (§3):
method token, target, protocol version, ordered header list, body bytes. -/
structure Request where
  method : List Nat
  target : List Nat
  version : List Nat
  headers : List (List Nat × List Nat)
  body : List Nat
  deriving DecidableEq, Repr

/-- Modelled from the spec: the resumable request parser of the missing
`http1/http_message_parser.h` (§4.1): current progress state, the request
being built, and the declared body length derived from the headers. -/
structure RequestParser where
  state : MessageState
  req : Request
  contentLength : Nat
  deriving DecidableEq, Repr

/-- Index of the first carriage-return byte of a window, if any. -/
def findCR : List Nat → Option Nat
  | [] => none
  | b :: rest => if b = 13 then some 0 else (findCR rest).map (· + 1)

/-- Index of the first carriage-return byte that is immediately followed by a
line-feed byte inside the window.  A carriage return sitting at the very end
of the window does not count: its line feed has not arrived yet. -/
def findCRLF : List Nat → Option Nat
  | [] => none
  | [_] => none
  | a :: b :: rest =>
    if a = 13 ∧ b = 10 then some 0 else (findCRLF (b :: rest)).map (· + 1)

/-- Split a byte list at every occurrence of the given separator byte. -/
def splitOnByte (sep : Nat) : List Nat → List (List Nat)
  | [] => [[]]
  | c :: rest =>
    let r := splitOnByte sep rest
    if c = sep then
      [] :: r
    else
      match r with
      | t :: ts => (c :: t) :: ts
      | [] => [[c]]

/-- Split a byte list at the first occurrence of the given separator byte,
dropping the separator; `none` when the separator is absent. -/
def splitFirstByte (sep : Nat) : List Nat → Option (List Nat × List Nat)
  | [] => none
  | c :: rest =>
    if c = sep then some ([], rest)
    else (splitFirstByte sep rest).map (fun p => (c :: p.1, p.2))

/-- ASCII lower-casing of one byte, for case-insensitive header names. -/
def lowerByte (b : Nat) : Nat :=
  if 65 ≤ b ∧ b ≤ 90 then b + 32 else b

/-- Recognized protocol versions of the start line. -/
def isKnownVersion (v : List Nat) : Bool :=
  v = strBytes "HTTP/1.1" ∨ v = strBytes "HTTP/1.0"

/-- Modelled from the spec: method, target and version extracted from a
complete start line; `none` when the three tokens cannot be extracted or the
version is unrecognized (§4.1, error kind `MalformedStartLine`). -/
def parseStartLine (line : List Nat) : Option (List Nat × List Nat × List Nat) :=
  match splitOnByte 32 line with
  | [m, t, v] =>
    if m ≠ [] ∧ t ≠ [] ∧ isKnownVersion v then some (m, t, v) else none
  | _ => none

/-- Decimal value of a header field holding a byte count. -/
def parseDecimal (l : List Nat) : Nat :=
  l.foldl (fun acc c => if 48 ≤ c ∧ c ≤ 57 then acc * 10 + (c - 48) else acc) 0

/-- Modelled from the spec: a header line split into name and value at the
first colon, with leading spaces of the value dropped; `none` when the
separator is missing (§4.1, error kind `MalformedHeader`). -/
def splitHeaderLine (line : List Nat) : Option (List Nat × List Nat) :=
  (splitFirstByte 58 line).map (fun p => (p.1, p.2.dropWhile (· = 32)))

/-- Modelled from the spec: the body-length policy derived on finalizing the
headers (§4.1): the decimal value of the first length-bearing header, whose
name is compared case-insensitively; absence means no body. -/
def contentLengthOf (headers : List (List Nat × List Nat)) : Nat :=
  match headers.find? (fun h => (h.1.map lowerByte) = strBytes "content-length") with
  | some h => parseDecimal h.2
  | none => 0

/-- Modelled from the spec: one resumable parsing pass over the supplied byte
window (§4.1).  Starting from the current state it advances as far as the
window allows and reports the parser after the pass, the number of bytes it
consumed from the window, and the outcome it stores in the caller's
`std::error_code`: `kNeedMore` when the window ended mid-token, `kSuccess`
when the message reached `kCompleted`, or a specific malformed-input error.
The fuel argument bounds the internal steps; each recursive step either
consumes window bytes or moves the state strictly forward, so
`window length + 3` steps always suffice. -/
def parsePass (fuel : Nat) (p : RequestParser) (w : List Nat) (consumed : Nat) :
    RequestParser × Nat × Error :=
  match fuel with
  | 0 => (p, consumed, Error.kNeedMore)
  | fuel + 1 =>
    match p.state with
    | MessageState.kNothingYet =>
      match w with
      | [] => (p, consumed, Error.kNeedMore)
      | _ :: _ => parsePass fuel { p with state := MessageState.kStartLine } w consumed
    | MessageState.kStartLine =>
      match findCR w with
      | none => (p, consumed, Error.kNeedMore)
      | some i =>
        match parseStartLine (w.take i) with
        | none => (p, consumed, Error.kMalformedStartLine)
        | some mtv =>
          parsePass fuel
            { p with
              state := MessageState.kExpectingNewline
              req := { p.req with
                method := mtv.1, target := mtv.2.1, version := mtv.2.2 } }
            (w.drop (i + 1)) (consumed + i + 1)
    | MessageState.kExpectingNewline =>
      match w with
      | [] => (p, consumed, Error.kNeedMore)
      | b :: rest =>
        if b = 10 then
          parsePass fuel { p with state := MessageState.kHeader } rest (consumed + 1)
        else
          (p, consumed, Error.kMalformedStartLine)
    | MessageState.kHeader =>
      match findCRLF w with
      | none => (p, consumed, Error.kNeedMore)
      | some i =>
        if i = 0 then
          let cl := contentLengthOf p.req.headers
          if cl = 0 then
            ({ p with state := MessageState.kCompleted, contentLength := cl },
              consumed + 2, Error.kSuccess)
          else
            parsePass fuel
              { p with state := MessageState.kBody, contentLength := cl }
              (w.drop 2) (consumed + 2)
        else
          match splitHeaderLine (w.take i) with
          | none => (p, consumed, Error.kMalformedHeader)
          | some nv =>
            parsePass fuel
              { p with req := { p.req with headers := p.req.headers ++ [nv] } }
              (w.drop (i + 2)) (consumed + i + 2)
    | MessageState.kBody =>
      let need := p.contentLength - p.req.body.length
      if need = 0 then
        ({ p with state := MessageState.kCompleted }, consumed, Error.kSuccess)
      else
        match w with
        | [] => (p, consumed, Error.kNeedMore)
        | _ :: _ =>
          let tak := min need w.length
          let p2 := { p with req := { p.req with body := p.req.body ++ w.take tak } }
          if tak = need then
            ({ p2 with state := MessageState.kCompleted }, consumed + tak, Error.kSuccess)
          else
            (p2, consumed + tak, Error.kNeedMore)
    | MessageState.kCompleted => (p, consumed, Error.kSuccess)

/-- Modelled from the spec: `http1::RequestParser::Parse(buffer, ec)` of the
missing `http1/http_message_parser.h`: one parsing pass over the supplied
bytes, returning the advanced parser, the count of bytes consumed by this
call, and the value stored into `ec`. -/
def Parse (p : RequestParser) (bytes : List Nat) : RequestParser × Nat × Error :=
  parsePass (bytes.length + 3) p bytes 0

/-- Modelled from the spec: the throughput/latency telemetry of the session
(§3 `Metrics`, the `metric.time.first`, `metric.time.last`,
`metric.time.elapsed` and `metric.size.total` fields used by
`update_state`).  Timestamps are nanoseconds since the epoch (zero meaning
"unset"), `elapsed` is in whole seconds. -/
structure recv_metric where
  first : Int
  last : Int
  elapsed : Int
  total : Nat
  deriving DecidableEq, Repr

/-- Modelled from the spec: the receive options of the missing
`tcp_connection.h` (§3 TimeBudget policy): `keepalive_timeout` and
`total_timeout`, in seconds; defaults follow the repository's sketch in
`t.cpp` (one hour of keepalive, 120 seconds total). -/
structure recv_option where
  keepalive_timeout : Int
  total_timeout : Int
  deriving DecidableEq, Repr

/-- Modelled from the spec: the unbounded sentinel (`std::chrono::seconds::max()`
per the repository's sketch in `t.cpp`). -/
def unlimited_timeout : Int := 9223372036854775807

/-- Default-constructed `recv_option{}`, as passed by `recv_request`. -/
def default_recv_option : recv_option :=
  { keepalive_timeout := 3600, total_timeout := 120 }

/-- Modelled from the spec: the `recv_state` of the missing
`tcp_connection.h` (§3 ReceiveSession): the fixed-capacity buffer, the count
of leading buffered-but-unparsed bytes, the parser (which owns the request
under construction), the metrics accumulator, and the remaining time budget
in seconds. -/
structure recv_state where
  buffer : List Nat
  unparsed_size : Nat
  parser : RequestParser
  metric : recv_metric
  remaining_time : Int
  deriving DecidableEq, Repr

/-- A value-initialized `recv_state{}` with the given buffer capacity: the
buffer is zero-filled and every counter starts at zero. -/
def init_recv_state (cap : Nat) : recv_state :=
  { buffer := List.replicate cap 0
    unparsed_size := 0
    parser :=
      { state := MessageState.kNothingYet
        req := { method := [], target := [], version := [], headers := [], body := [] }
        contentLength := 0 }
    metric := { first := 0, last := 0, elapsed := 0, total := 0 }
    remaining_time := 0 }

/-- `detailed_error` of `tcp_connection.cpp`: the detailed error enum for a
message parser state. -/
def detailed_error : MessageState → Error
  | MessageState.kNothingYet => Error.kRecvRequestTimeoutWithNothing
  | MessageState.kStartLine => Error.kRecvRequestLineTimeout
  | MessageState.kExpectingNewline => Error.kRecvRequestLineTimeout
  | MessageState.kHeader => Error.kRecvRequestHeadersTimeout
  | MessageState.kBody => Error.kRecvRequestBodyTimeout
  | MessageState.kCompleted => Error.kSuccess

/-- `check_parse_done` of `tcp_connection.cpp`: `ec && ec != kNeedMore`.
A `std::error_code` is `Option Error`: `none` is the cleared default code
(numeric value zero, boolean `false`); any enumerator is nonzero, hence
boolean `true`. -/
def check_parse_done (ec : Option Error) : Bool :=
  ec.isSome && ec ≠ some Error.kNeedMore

/-- `initialize_state` of `tcp_connection.cpp`: seed the remaining budget
from the keepalive timeout when that is limited, from the total timeout
otherwise. -/
def initialize_state (st : recv_state) (opt : recv_option) : recv_state :=
  if opt.keepalive_timeout ≠ unlimited_timeout then
    { st with remaining_time := opt.keepalive_timeout }
  else
    { st with remaining_time := opt.total_timeout }

/-- `update_state` of `tcp_connection.cpp`: fold one completed read into the
session.  `elapsed` is `duration_cast<seconds>(start - stop)` — the
difference of the two timestamps, truncated toward zero to whole seconds,
exactly as the source writes it (note the operand order). -/
def update_state (start stop : Int) (recv_size : Nat) (st : recv_state) : recv_state :=
  let elapsed := Int.tdiv (start - stop) 1000000000
  let m0 := st.metric
  let m1 := if m0.first = 0 then { m0 with first := start } else m0
  { st with
    metric :=
      { m1 with
        last := stop
        elapsed := m1.elapsed + elapsed
        total := m1.total + recv_size }
    unparsed_size := st.unparsed_size + recv_size
    remaining_time := st.remaining_time - elapsed }

/-- `check_recv_size` of `tcp_connection.cpp`: a zero-byte read completion
becomes the `kEndOfStream` error, anything else passes through. -/
def check_recv_size (recv_size : Nat) : Option Error :=
  if recv_size ≠ 0 then none else some Error.kEndOfStream

/-- `parse_request` of `tcp_connection.cpp`: copy the whole buffer
(`CopyArray(state.buffer)` — the entire array, not only the first
`unparsed_size` bytes), run one parser pass over the copy, and, when the
parser needs more data and consumed strictly fewer bytes than
`unparsed_size`, shift the unconsumed bytes to the front of the buffer
(`memcpy`) and shrink `unparsed_size`.  Returns the updated session and the
`check_parse_done` verdict handed to `repeat_effect_until`. -/
def parse_request (st : recv_state) : recv_state × Bool :=
  let ss := st.buffer
  let res := Parse st.parser ss
  let parsed_size := res.2.1
  let ec : Option Error := some res.2.2
  let st2 := { st with parser := res.1 }
  let st3 :=
    if ec = some Error.kNeedMore ∧ parsed_size < st2.unparsed_size then
      { st2 with
        unparsed_size := st2.unparsed_size - parsed_size
        buffer :=
          (st2.buffer.drop parsed_size).take (st2.unparsed_size - parsed_size)
            ++ st2.buffer.drop (st2.unparsed_size - parsed_size) }
    else st2
  (st3, check_parse_done ec)

/-- Terminal outcome of one `recv_request` run: the parsed request with its
metrics, a classified error, or `pending` when the supplied event trace ended
while the loop was still awaiting its next read. -/
inductive Outcome where
  | ok (req : Request) (m : recv_metric)
  | err (e : Error)
  | pending
  deriving DecidableEq, Repr

/-- The request carried by a successful outcome, if any. -/
def Outcome.requestOf : Outcome → Option Request
  | Outcome.ok req _ => some req
  | _ => none

/-- `finished` of `tcp_connection.cpp`: a completed parse hands back the
request and metrics; any other state at loop exit is classified through
`detailed_error`. -/
def finished (st : recv_state) : Outcome :=
  if st.parser.state = MessageState.kCompleted then Outcome.ok st.parser.req st.metric
  else Outcome.err (detailed_error st.parser.state)

/-- Modelled from the spec: the three-way resolution of one timed read
attempt (§4.3, §6, using the missing `utils/timeout.h`): the read completed
in time with the given bytes and the start/stop timestamps measured by the
timeout adaptor, or the armed deadline elapsed first, or the read was
cancelled from outside.  Both the deadline expiry and an external stop reach
the pipeline on the stopped channel, which `ex::let_stopped` intercepts. -/
inductive ReadEvent where
  | data (start stop : Int) (bytes : List Nat)
  | timeout
  | cancel
  deriving DecidableEq, Repr

/-- Effect of `sio::async::read_some` writing the arrived bytes into the
write window, the unused suffix of the buffer starting at `unparsed_size`. -/
def deposit_bytes (bytes : List Nat) (st : recv_state) : recv_state :=
  { st with
    buffer :=
      (st.buffer.take st.unparsed_size ++ bytes
        ++ st.buffer.drop (st.unparsed_size + bytes.length)).take st.buffer.length }

/-- The `repeat_effect_until` loop of `recv_request` in `tcp_connection.cpp`,
driven by an event trace.  Each iteration performs exactly one read: a
deadline expiry or an external stop is turned into the `kRecvTimeout` error
by `ex::let_stopped`; a zero-byte completion fails through
`check_recv_size`; otherwise the bytes are deposited into the write window,
`update_state` folds the measured times and the byte count into the session,
`parse_request` runs one parser pass, and the loop either repeats or hands
the session to `finished`.  An exhausted trace leaves the run `pending` at
its next read. -/
def loopRun : List ReadEvent → recv_state → Outcome
  | [], _ => Outcome.pending
  | ReadEvent.timeout :: _, _ => Outcome.err Error.kRecvTimeout
  | ReadEvent.cancel :: _, _ => Outcome.err Error.kRecvTimeout
  | ReadEvent.data start stop bytes :: rest, st =>
    match check_recv_size bytes.length with
    | some e => Outcome.err e
    | none =>
      if (parse_request (update_state start stop bytes.length (deposit_bytes bytes st))).2 then
        finished (parse_request (update_state start stop bytes.length (deposit_bytes bytes st))).1
      else
        loopRun rest (parse_request (update_state start stop bytes.length (deposit_bytes bytes st))).1

/-- `recv_request` of `tcp_connection.cpp`: start from a value-initialized
`recv_state{}` of the given buffer capacity, seed the budget with
`initialize_state(state, {})`, and run the read/parse loop over the event
trace. -/
def recv_request (cap : Nat) (events : List ReadEvent) : Outcome :=
  loopRun events (initialize_state (init_recv_state cap) default_recv_option)

/-- Bytes of the well-formed sample message of the design document's
scenario 3: a request with a declared body length of five. -/
def msgFull : List Nat := strBytes "GET / HTTP/1.1\r\nContent-Length: 5\r\n\r\nhello"

/-- First chunk of the two-read split of `msgFull`: everything up to and
including the first three body bytes. -/
def msgChunk1 : List Nat := strBytes "GET / HTTP/1.1\r\nContent-Length: 5\r\n\r\nhel"

/-- Second chunk of the two-read split of `msgFull`: the last two body bytes. -/
def msgChunk2 : List Nat := strBytes "lo"

/-- The request that parsing `msgFull` in one read produces. -/
def reqSingle : Request :=
  { method := strBytes "GET", target := strBytes "/", version := strBytes "HTTP/1.1"
    headers := [(strBytes "Content-Length", strBytes "5")]
    body := strBytes "hello" }

/-- The request that the two-read split produces: the parser, fed the whole
buffer, completes the five-byte body with two stale zero bytes that were
never received. -/
def reqChunked : Request :=
  { reqSingle with body := strBytes "hel" ++ [0, 0] }

/-- The session as `recv_request` sets it up: capacity 64, budget seeded by
`initialize_state(state, {})`. -/
def st0 : recv_state := initialize_state (init_recv_state 64) default_recv_option

/-- A session whose 40-byte buffer is entirely filled with valid unparsed
bytes (`msgChunk1`), about to run its first parser pass. -/
def st6 : recv_state :=
  { buffer := msgChunk1, unparsed_size := 40
    parser := (init_recv_state 0).parser
    metric := { first := 0, last := 0, elapsed := 0, total := 0 }
    remaining_time := 120 }

/-- Claim C1: the claim says a session whose read deadline elapses fails with
the timeout kind derived from the `ParseState` active at expiry and never
with a generic timeout error.  The code disagrees: the deadline expiry
reaches the pipeline on the stopped channel and `ex::let_stopped` turns it
into the generic `kRecvTimeout`, which propagates past `finished` on the
error channel; `detailed_error`'s state-specific table is never consulted on
a timeout.  This theorem evaluates two timed-out sessions — one with no
bytes at all (state `kNothingYet` at expiry) and one mid start line — and
both produce `kRecvTimeout`, distinct from the state-specific errors the
claim requires. -/
theorem timeout_expiry_yields_generic_error :
    recv_request 64 [ReadEvent.timeout] = Outcome.err Error.kRecvTimeout
  ∧ recv_request 64 [ReadEvent.data 1000000000 1000000000 (strBytes "GET / HTT"),
      ReadEvent.timeout] = Outcome.err Error.kRecvTimeout
  ∧ detailed_error MessageState.kNothingYet = Error.kRecvRequestTimeoutWithNothing
  ∧ Error.kRecvTimeout ≠ Error.kRecvRequestTimeoutWithNothing
  ∧ Error.kRecvTimeout ≠ Error.kRecvRequestLineTimeout := by
  decide

/-- Claim C3: the claim says any chunking of a well-formed message yields a
byte-identical `Request`, each parser call operating on exactly the first
`unparsed_len` buffer bytes.  The code instead hands the parser the whole
buffer (`CopyArray(state.buffer)`, flagged DEBUG in the source), stale
suffix included: splitting scenario 3's message after three body bytes makes
the parser complete the five-byte body with two zero bytes that were never
received, so the chunked run's request differs from the single-read run's. -/
theorem chunked_run_diverges_from_single_shot :
    msgFull = msgChunk1 ++ msgChunk2
  ∧ (recv_request 64 [ReadEvent.data 1000000000 1000000000 msgFull]).requestOf
      = some reqSingle
  ∧ (recv_request 64 [ReadEvent.data 1000000000 1000000000 msgChunk1,
        ReadEvent.data 2000000000 2000000000 msgChunk2]).requestOf = some reqChunked
  ∧ reqSingle ≠ reqChunked
  ∧ reqSingle.body = strBytes "hello"
  ∧ reqChunked.body = strBytes "hel" ++ [0, 0] := by
  decide

/-- Claim C4: the claim says `remaining_budget` is monotonically
non-increasing after initialization.  `update_state` computes
`duration_cast<seconds>(start - stop)` — the operands are swapped, so any
read that takes at least one second yields a negative elapsed value and
`remaining_time -= elapsed` grows the budget: a read lasting from one to
three seconds raises the 3600-second budget to 3602. -/
theorem slow_read_increases_budget :
    st0.remaining_time = 3600
  ∧ (update_state 1000000000 3000000000 10 st0).remaining_time = 3602
  ∧ st0.remaining_time < (update_state 1000000000 3000000000 10 st0).remaining_time := by
  decide

/-- Claim C5: the claim says each in-time read adds a non-negative elapsed
wall time to `Metrics.elapsed` and subtracts it from `remaining_budget`.
Because `update_state` computes `start - stop`, the same two-second read
DECREASES `Metrics.elapsed` by two and increases the budget; the remaining
updates of the claim (first/last byte timestamps, byte total,
`unparsed_len`) do hold. -/
theorem slow_read_decreases_metric_elapsed :
    (update_state 1000000000 3000000000 10 st0).metric.elapsed = st0.metric.elapsed - 2
  ∧ (update_state 1000000000 3000000000 10 st0).metric.first = 1000000000
  ∧ (update_state 1000000000 3000000000 10 st0).metric.last = 3000000000
  ∧ (update_state 1000000000 3000000000 10 st0).metric.total = st0.metric.total + 10
  ∧ (update_state 1000000000 3000000000 10 st0).unparsed_size = st0.unparsed_size + 10 := by
  decide

/-- Claim C6: the claim says a parser call that consumes `k` bytes without
finishing always leaves `unparsed_len` decremented by `k`, including when
`k = unparsed_len`, after which it is zero.  The compaction in
`parse_request` is guarded by `parsed_size < state.unparsed_size`, so the
boundary case is skipped: on a full 40-byte buffer whose parser pass
consumes all 40 bytes and still needs more, `unparsed_size` stays 40
instead of dropping to 0, and the already-consumed bytes remain counted as
unparsed. -/
theorem full_consumption_skips_compaction :
    (Parse st6.parser st6.buffer).2.1 = 40
  ∧ (Parse st6.parser st6.buffer).2.2 = Error.kNeedMore
  ∧ st6.unparsed_size = 40
  ∧ (parse_request st6).1.unparsed_size = 40
  ∧ (parse_request st6).2 = false := by
  decide

/-- Claim C7 counterexample: the claim says an externally cancelled read
produces a cancellation outcome distinguishable from every timeout kind.
In the code both the deadline expiry and an external stop arrive on the
stopped channel and `ex::let_stopped` maps them to the same `kRecvTimeout`
error: a cancelled session's outcome is byte-for-byte the outcome of a
timed-out session.  (No request is produced, which is the part of the claim
that does hold.) -/
theorem cancellation_indistinguishable_from_timeout :
    recv_request 64 [ReadEvent.cancel] = Outcome.err Error.kRecvTimeout
  ∧ recv_request 64 [ReadEvent.cancel] = recv_request 64 [ReadEvent.timeout]
  ∧ (recv_request 64 [ReadEvent.cancel]).requestOf = none := by
  decide

/-- Claim C8 counterexample: the claim says a loop iteration starting with
an empty write window fails with `MessageTooLarge` rather than issuing a
read.  The code has no such check: with a 4-byte buffer entirely filled by
an unfinished start line, the loop stays pending on a further read, and
when that read completes with zero bytes the run fails with `kEndOfStream`,
not `kMessageTooLarge`. -/
theorem full_buffer_read_yields_end_of_stream :
    recv_request 4 [ReadEvent.data 1000000000 1000000000 (strBytes "GET ")] = Outcome.pending
  ∧ recv_request 4 [ReadEvent.data 1000000000 1000000000 (strBytes "GET "),
      ReadEvent.data 2000000000 2000000000 []] = Outcome.err Error.kEndOfStream
  ∧ Error.kEndOfStream ≠ Error.kMessageTooLarge := by
  decide

/-- Helper: `finished` classifies loop exits through `detailed_error`, whose
range never contains `kMessageTooLarge`. -/
theorem finished_ne_message_too_large (st : recv_state) :
    finished st ≠ Outcome.err Error.kMessageTooLarge := by
  unfold finished
  split
  · simp
  · cases st.parser.state <;> simp [detailed_error]

/-- Claim C2: once a loop iteration produces a terminal outcome — the parser
reported done (so the loop exits into `finished`) or any failure — no later
event of the trace is consumed, i.e. no further read and no further parser
pass occurs for the session.  Part one: a trace whose run is already
terminal absorbs any appended events.  Part two: an iteration whose parser
pass satisfies `check_parse_done` hands the session straight to `finished`
instead of reading again. -/
theorem loop_terminal_absorbs_later_events :
    (∀ (es extra : List ReadEvent) (st : recv_state),
      loopRun es st ≠ Outcome.pending →
      loopRun (es ++ extra) st = loopRun es st)
  ∧ (∀ (start stop : Int) (bytes : List Nat) (rest : List ReadEvent) (st : recv_state),
      bytes.length ≠ 0 →
      (parse_request (update_state start stop bytes.length (deposit_bytes bytes st))).2 = true →
      loopRun (ReadEvent.data start stop bytes :: rest) st
        = finished (parse_request (update_state start stop bytes.length (deposit_bytes bytes st))).1) := by
  constructor
  · intro es
    induction es with
    | nil =>
      intro extra st h
      simp [loopRun] at h
    | cons e rest ih =>
      intro extra st h
      cases e with
      | timeout => rfl
      | cancel => rfl
      | data a b bs =>
        by_cases h0 : bs.length = 0
        · simp [loopRun, check_recv_size, h0]
        · have hnone : check_recv_size bs.length = none := by
            simp [check_recv_size, h0]
          simp only [List.cons_append, loopRun, hnone] at h ⊢
          by_cases hd :
            (parse_request (update_state a b bs.length (deposit_bytes bs st))).2 = true
          · simp [hd]
          · simp only [Bool.not_eq_true] at hd
            simp only [hd] at h ⊢
            simp only [Bool.false_eq_true, if_false] at h ⊢
            exact ih extra _ h
  · intro a b bs rest st h1 h2
    have hnone : check_recv_size bs.length = none := by
      simp [check_recv_size, h1]
    simp only [loopRun, hnone, h2, if_true]

/-- Witness for claim C2's theorem at a concrete terminal trace: a
timed-out one-event run absorbs an appended event. -/
theorem loop_terminal_absorbs_later_events_witness :
    loopRun [ReadEvent.timeout] (init_recv_state 4) ≠ Outcome.pending
  ∧ loopRun ([ReadEvent.timeout] ++ [ReadEvent.cancel]) (init_recv_state 4)
      = loopRun [ReadEvent.timeout] (init_recv_state 4) :=
  ⟨by decide, loop_terminal_absorbs_later_events.1 [ReadEvent.timeout] [ReadEvent.cancel]
      (init_recv_state 4) (by decide)⟩

/-- Claim C8 as amended: a loop iteration facing an empty write window does
not fail with `MessageTooLarge`; it issues the next read anyway, whose
zero-byte completion is classified `kEndOfStream` — indeed no run of the
pipeline, on any trace and from any session state, ever produces the
`kMessageTooLarge` error. -/
theorem no_run_fails_message_too_large (es : List ReadEvent) (st : recv_state) :
    loopRun es st ≠ Outcome.err Error.kMessageTooLarge := by
  induction es generalizing st with
  | nil => simp [loopRun]
  | cons e rest ih =>
    cases e with
    | timeout => simp [loopRun]
    | cancel => simp [loopRun]
    | data a b bs =>
      by_cases h0 : bs.length = 0
      · simp [loopRun, check_recv_size, h0]
      · have hnone : check_recv_size bs.length = none := by
          simp [check_recv_size, h0]
        simp only [loopRun, hnone]
        split
        · exact finished_ne_message_too_large _
        · exact ih _

/-- Claim C7 as amended: an externally cancelled read surfaces as the same
`kRecvTimeout` error a deadline expiry produces — cancellation is not
distinguishable from a timeout in the result — though it is distinguishable
from `kEndOfStream`, and no request is produced. -/
theorem cancel_surfaces_as_recv_timeout (es : List ReadEvent) (st : recv_state) :
    loopRun (ReadEvent.cancel :: es) st = Outcome.err Error.kRecvTimeout
  ∧ loopRun (ReadEvent.cancel :: es) st ≠ Outcome.err Error.kEndOfStream
  ∧ (loopRun (ReadEvent.cancel :: es) st).requestOf = none := by
  refine ⟨rfl, by simp [loopRun], rfl⟩

/-- Claim C9: at session start, a limited `keepalive_timeout` — and not
`total_timeout` — seeds `remaining_budget`; an unbounded one lets
`total_timeout` seed it.  Proved for every session state and every
combination of configured values. -/
theorem initialize_state_seeds_budget (st : recv_state) (opt : recv_option) :
    (opt.keepalive_timeout ≠ unlimited_timeout →
      (initialize_state st opt).remaining_time = opt.keepalive_timeout)
  ∧ (opt.keepalive_timeout = unlimited_timeout →
      (initialize_state st opt).remaining_time = opt.total_timeout) := by
  constructor <;> intro h <;> simp [initialize_state, h]

/-- Witness for claim C9's theorem at two concrete option records: a finite
keepalive of five seconds seeds the budget with five; an unbounded keepalive
lets the nine-second total timeout seed it. -/
theorem initialize_state_seeds_budget_witness :
    ((5 : Int) ≠ unlimited_timeout
      ∧ (initialize_state (init_recv_state 4)
          { keepalive_timeout := 5, total_timeout := 9 }).remaining_time = 5)
  ∧ (initialize_state (init_recv_state 4)
      { keepalive_timeout := unlimited_timeout, total_timeout := 9 }).remaining_time = 9 :=
  ⟨⟨by decide, (initialize_state_seeds_budget (init_recv_state 4)
      { keepalive_timeout := 5, total_timeout := 9 }).1 (by decide)⟩,
    (initialize_state_seeds_budget (init_recv_state 4)
      { keepalive_timeout := unlimited_timeout, total_timeout := 9 }).2 rfl⟩

/-- Helper: an integer whose absolute value is below the divisor divides to
zero under truncating division. -/
theorem tdiv_eq_zero_of_natAbs_lt (d : Int) (k : Nat) (h : d.natAbs < k) :
    Int.tdiv d (Int.ofNat k) = 0 := by
  cases d with
  | ofNat n =>
    have hn : n < k := by simpa [Int.natAbs] using h
    simp [Int.tdiv, Nat.div_eq_of_lt hn]
  | negSucc m =>
    have hm : m + 1 < k := by simpa [Int.natAbs] using h
    simp [Int.tdiv, Nat.div_eq_of_lt hm]

/-- Claim C10: the duration folded into `Metrics.elapsed` and subtracted from
`remaining_budget` by each successful read is the timestamp difference
truncated to whole seconds (`duration_cast<std::chrono::seconds>`), so a
read whose two timestamps differ by less than one second contributes
exactly zero to `Metrics.elapsed` and leaves `remaining_budget` unchanged. -/
theorem elapsed_is_truncated_difference (st : recv_state) (a b : Int) (n : Nat) :
    ((update_state a b n st).metric.elapsed
        = st.metric.elapsed + Int.tdiv (a - b) 1000000000)
  ∧ ((update_state a b n st).remaining_time
        = st.remaining_time - Int.tdiv (a - b) 1000000000)
  ∧ ((a - b).natAbs < 1000000000 →
      (update_state a b n st).metric.elapsed = st.metric.elapsed
      ∧ (update_state a b n st).remaining_time = st.remaining_time) := by
  have hz : (a - b).natAbs < 1000000000 → Int.tdiv (a - b) 1000000000 = 0 := by
    intro h
    exact tdiv_eq_zero_of_natAbs_lt (a - b) 1000000000 h
  refine ⟨?_, ?_, ?_⟩
  · by_cases hf : st.metric.first = 0 <;> simp [update_state, hf]
  · by_cases hf : st.metric.first = 0 <;> simp [update_state, hf]
  · intro h
    constructor
    · by_cases hf : st.metric.first = 0 <;> simp [update_state, hf, hz h]
    · by_cases hf : st.metric.first = 0 <;> simp [update_state, hf, hz h]

/-- Witness for claim C10's theorem at a concrete sub-second read: with
timestamps half a second apart, the update leaves both `Metrics.elapsed` and
the remaining budget untouched. -/
theorem elapsed_is_truncated_difference_witness :
    ((1000000000 : Int) - 1500000000).natAbs < 1000000000
  ∧ ((update_state 1000000000 1500000000 7 (init_recv_state 4)).metric.elapsed
        = (init_recv_state 4).metric.elapsed
      ∧ (update_state 1000000000 1500000000 7 (init_recv_state 4)).remaining_time
        = (init_recv_state 4).remaining_time) :=
  ⟨by decide, (elapsed_is_truncated_difference (init_recv_state 4) 1000000000 1500000000 7).2.2
      (by decide)⟩

end Networking
